import Mathlib

/-!
Shallow embedding of the todo_app service (FastAPI + SQLAlchemy) and proofs
about its authentication, authorization, todo CRUD and error-mapping logic.

Sources embedded:
  - exception_handlers.py (the Error Mapper: per-exception-type handlers),
  - exceptions.py (the custom HTTP exception hierarchy),
  - routers/auth.py (token issuance and resolution, registration, login),
  - routers/admin.py (the admin guard),
  - routers/todos.py (owner-scoped todo CRUD).

External collaborators that the repository delegates to vetted libraries
(bcrypt password hashing, JWT encode and decode, the SQLite engine) are
modelled explicitly below; each such model carries a doc comment saying so.
Machine-level detail (sessions, connection pooling) is out of scope per the
specification and is modelled as explicit state passing over a DB value.
-/

namespace TodoApp

/-! ## String primitives

Python string operations used by the Error Mapper, modelled over `List Char`
so that every proof obligation reduces in the kernel: membership test
(Python `needle in s`) and `str.split` with a non-empty separator. -/

/-- Result of stripping `sep` from the front of `l`: `some` remainder when
`sep` is a prefix of `l`, else `none`. -/
def dropPre : List Char → List Char → Option (List Char)
  | [], l => some l
  | _ :: _, [] => none
  | x :: xs, y :: ys => if x = y then dropPre xs ys else none

/-- Python `needle in hay`: `needle` occurs contiguously in `hay`. -/
def listContains (needle : List Char) : List Char → Bool
  | [] => needle.isEmpty
  | y :: ys => (dropPre needle (y :: ys)).isSome || listContains needle ys

/-- Python `needle in hay` on strings. -/
def strContains (hay needle : String) : Bool := listContains needle.toList hay.toList

/-- Worker for `pySplit`; the fuel argument is the length of the remaining
text, which bounds the recursion depth (each step consumes at least one
character because the separator is non-empty). -/
def pySplitGo (sep : List Char) : Nat → List Char → List Char → List (List Char)
  | _, acc, [] => [acc.reverse]
  | 0, acc, s => [acc.reverse ++ s]
  | fuel + 1, acc, y :: ys =>
    match dropPre sep (y :: ys) with
    | some r => acc.reverse :: pySplitGo sep fuel [] r
    | none => pySplitGo sep fuel (y :: acc) ys

/-- Python `s.split(sep)` for a non-empty separator: splits on every
non-overlapping occurrence, keeping empty pieces. -/
def pySplit (s sep : String) : List String :=
  match sep.toList with
  | [] => [s]
  | c :: cs => (pySplitGo (c :: cs) s.toList.length [] s.toList).map String.mk

/-! ## JSON bodies and HTTP exceptions -/

/-- JSON values appearing in the error envelopes.  Context objects in the
source only ever map string keys to string values, so `jobj` is flat. -/
inductive JVal where
  | jbool : Bool → JVal
  | jnat : Nat → JVal
  | jstr : String → JVal
  | jnull : JVal
  | jobj : List (String × String) → JVal
deriving DecidableEq, Repr

/-- A `JSONResponse`: HTTP status plus the JSON object content, as an ordered
key-value list (dict insertion order in the source). -/
structure Response where
  status_code : Nat
  content : List (String × JVal)
deriving DecidableEq, Repr

/-- An HTTP exception as raised by the handlers.  Plain FastAPI
`HTTPException`s carry `error_code = none` and empty `context`; the
`CustomHTTPException` subclasses of exceptions.py set both. -/
structure HTTPException where
  status_code : Nat
  detail : String
  error_code : Option String
  context : List (String × String)
deriving DecidableEq, Repr

/-- A plain FastAPI `HTTPException(status_code, detail)`. -/
def HTTPException.plain (status_code : Nat) (detail : String) : HTTPException :=
  ⟨status_code, detail, none, []⟩

/-- exceptions.py `AuthenticationException`. -/
def AuthenticationException (detail : String) : HTTPException :=
  ⟨401, detail, some "AUTHENTICATION_FAILED", []⟩

/-- exceptions.py `UsernameAlreadyExistsException`. -/
def UsernameAlreadyExistsException (username : String) : HTTPException :=
  ⟨409, "A user with this username already exists", some "USERNAME_ALREADY_EXISTS",
   [("username", username)]⟩

/-- exceptions.py `EmailAlreadyExistsException`. -/
def EmailAlreadyExistsException (email : String) : HTTPException :=
  ⟨409, "A user with this email already exists", some "EMAIL_ALREADY_EXISTS",
   [("email", email)]⟩

/-! ## Error Mapper (exception_handlers.py) -/

/-- Condition 1 of `integrity_error_handler`. -/
def username_unique_violation (error_message : String) : Bool :=
  strContains error_message "UNIQUE constraint failed: users.username"

/-- Condition 2 of `integrity_error_handler`. -/
def email_unique_violation (error_message : String) : Bool :=
  strContains error_message "UNIQUE constraint failed: users.email"

/-- Condition 3 of `integrity_error_handler`. -/
def unique_violation (error_message : String) : Bool :=
  strContains error_message "UNIQUE constraint failed"

/-- Condition 4 of `integrity_error_handler`. -/
def notnull_violation (error_message : String) : Bool :=
  strContains error_message "NOT NULL constraint failed"

/-- Field-name extraction in the not-null branch of `integrity_error_handler`:
Python
`error_message.split("NOT NULL constraint failed: ")[-1].split(".")[1]
 if "." in error_message else "unknown"`.
Returns `none` exactly when the Python expression raises `IndexError`
(the message contains a period but the segment after the marker has none). -/
def extract_notnull_field (error_message : String) : Option String :=
  if strContains error_message "." then
    (pySplit ((pySplit error_message "NOT NULL constraint failed: ").getLast?.getD "")
      ".")[1]?
  else some "unknown"

/-- Response of the username-uniqueness branch. -/
def usernameExistsResponse : Response :=
  ⟨409, [("error", .jbool true),
         ("message", .jstr "A user with this username already exists"),
         ("error_code", .jstr "USERNAME_ALREADY_EXISTS"),
         ("status_code", .jnat 409)]⟩

/-- Response of the email-uniqueness branch. -/
def emailExistsResponse : Response :=
  ⟨409, [("error", .jbool true),
         ("message", .jstr "A user with this email already exists"),
         ("error_code", .jstr "EMAIL_ALREADY_EXISTS"),
         ("status_code", .jnat 409)]⟩

/-- Response of the generic-uniqueness branch. -/
def duplicateRecordResponse : Response :=
  ⟨409, [("error", .jbool true),
         ("message", .jstr "A record with these details already exists"),
         ("error_code", .jstr "DUPLICATE_RECORD"),
         ("status_code", .jnat 409)]⟩

/-- Response of the not-null branch, for the extracted field name. -/
def requiredFieldResponse (field_name : String) : Response :=
  ⟨422, [("error", .jbool true),
         ("message", .jstr ("Field \x27" ++ field_name ++ "\x27 is required and cannot be null")),
         ("error_code", .jstr "REQUIRED_FIELD_MISSING"),
         ("status_code", .jnat 422),
         ("context", .jobj [("field", field_name)])]⟩

/-- Response of the fallback branch; note the extra `details` key. -/
def constraintViolationResponse (error_message : String) : Response :=
  ⟨400, [("error", .jbool true),
         ("message", .jstr "Database constraint violation"),
         ("error_code", .jstr "CONSTRAINT_VIOLATION"),
         ("status_code", .jnat 400),
         ("details", .jstr error_message)]⟩

/-- exception_handlers.py `integrity_error_handler`, as a function of the
diagnostic text `str(exc.orig)`.  Returns `none` when the handler itself
raises (`IndexError` in the field-name extraction) and therefore produces no
mapped response. -/
def integrity_error_handler (error_message : String) : Option Response :=
  if username_unique_violation error_message then some usernameExistsResponse
  else if email_unique_violation error_message then some emailExistsResponse
  else if unique_violation error_message then some duplicateRecordResponse
  else if notnull_violation error_message then
    (extract_notnull_field error_message).map requiredFieldResponse
  else some (constraintViolationResponse error_message)

/-- exception_handlers.py `custom_http_exception_handler`: echoes status,
detail and error code; the `context` key is attached only when the context
dict is truthy, i.e. non-empty. -/
def custom_http_exception_handler (exc : HTTPException) : Response :=
  let base : List (String × JVal) :=
    [("error", .jbool true),
     ("message", .jstr exc.detail),
     ("error_code", match exc.error_code with | none => .jnull | some c => .jstr c),
     ("status_code", .jnat exc.status_code)]
  ⟨exc.status_code, if exc.context.isEmpty then base else base ++ [("context", .jobj exc.context)]⟩

/-- exception_handlers.py `sqlalchemy_error_handler`. -/
def sqlalchemy_error_handler : Response :=
  ⟨500, [("error", .jbool true),
         ("message", .jstr "Database operation failed"),
         ("error_code", .jstr "DATABASE_ERROR"),
         ("status_code", .jnat 500)]⟩

/-- exception_handlers.py `http_exception_handler`. -/
def http_exception_handler (exc : HTTPException) : Response :=
  ⟨exc.status_code, [("error", .jbool true),
                     ("message", .jstr exc.detail),
                     ("error_code", .jstr "HTTP_EXCEPTION"),
                     ("status_code", .jnat exc.status_code)]⟩

/-- exception_handlers.py `general_exception_handler`. -/
def general_exception_handler : Response :=
  ⟨500, [("error", .jbool true),
         ("message", .jstr "An unexpected error occurred"),
         ("error_code", .jstr "INTERNAL_SERVER_ERROR"),
         ("status_code", .jnat 500)]⟩

/-- Keys of the uniform error envelope, in emission order. -/
def envelopeKeys : List String := ["error", "message", "error_code", "status_code"]

/-- The uniform envelope shape claimed by the specification: exactly the keys
error, message, error_code, status_code and optionally context, with
`error = true` and the body status equal to the HTTP status. -/
abbrev uniformEnvelope (r : Response) : Prop :=
  (r.content.map Prod.fst = envelopeKeys ∨
   r.content.map Prod.fst = envelopeKeys ++ ["context"]) ∧
  r.content.lookup "error" = some (JVal.jbool true) ∧
  r.content.lookup "status_code" = some (JVal.jnat r.status_code)

/-! ## Token Service (routers/auth.py) -/

/-- JWT payload as encoded by routers/auth.py: the claims `sub` and `user_id`
placed in the data dict (either may be absent) plus the `exp` timestamp that
`create_access_token` always sets (seconds since the epoch). -/
structure Payload where
  sub : Option String
  user_id : Option Int
  exp : Int
deriving DecidableEq, Repr

/-- A signed token: its payload together with the key it was signed with. -/
structure Token where
  payload : Payload
  key : String
deriving DecidableEq, Repr

/-- Modelled from the spec: the JWT encode primitive is delegated to a vetted
library (out of scope per section 1); a signed token is modelled as the
payload paired with the signing key, which is exactly the tamper-evidence the
signature provides. -/
def jwtEncode (payload : Payload) (key : String) : Token := ⟨payload, key⟩

/-- Modelled from the spec: the JWT decode primitive is delegated to a vetted
library; it rejects (raises, here `none`) when the token was signed with a
different key or when the `exp` claim lies strictly before `now`, and
otherwise yields the payload. -/
def jwtDecode (token : Token) (key : String) (now : Int) : Option Payload :=
  if token.key = key then
    if token.payload.exp < now then none else some token.payload
  else none

/-- routers/auth.py module constant. -/
def SECRET_KEY : String := "your-secret-key-here"

/-- routers/auth.py module constant, in minutes. -/
def ACCESS_TOKEN_EXPIRE_MINUTES : Int := 30

/-- The `data` dict passed to `create_access_token`. -/
structure TokenData where
  sub : Option String
  user_id : Option Int
deriving DecidableEq, Repr

/-- routers/auth.py `create_access_token`: copies the claims and stamps
`exp = now + expires_delta` (default thirty minutes), then signs with the
module secret.  `expires_delta` is in seconds. -/
def create_access_token (data : TokenData) (expires_delta : Option Int) (now : Int) : Token :=
  let expire : Int :=
    match expires_delta with
    | some delta => now + delta
    | none => now + ACCESS_TOKEN_EXPIRE_MINUTES * 60
  jwtEncode ⟨data.sub, data.user_id, expire⟩ SECRET_KEY

/-- The authenticated principal, the dict `{username, id}` returned by
`get_current_user`. -/
structure Principal where
  username : String
  id : Int
deriving DecidableEq, Repr

/-- routers/auth.py `get_current_user`: decodes with the module secret
(signature and expiry checked by the decode primitive, failure mapped to
401), then requires both the `sub` and `user_id` claims. -/
def get_current_user (token : Token) (now : Int) : Except HTTPException Principal :=
  match jwtDecode token SECRET_KEY now with
  | none => .error (HTTPException.plain 401 "Could not validate user")
  | some payload =>
    match payload.sub, payload.user_id with
    | some username, some user_id => .ok ⟨username, user_id⟩
    | _, _ => .error (HTTPException.plain 401 "Could not validate user")

/-! ## Credential and todo stores -/

/-- Modelled from the spec: the bcrypt hashing primitive is delegated to a
vetted library (out of scope per section 1); modelled as an injective tagging
so that verification succeeds exactly for the hashed password. -/
def bcrypt_hash (password : String) : String := "bcrypt$" ++ password

/-- Modelled from the spec: bcrypt verification against a stored hash. -/
def bcrypt_verify (password hashed_password : String) : Bool :=
  hashed_password == bcrypt_hash password

/-- models.py `Users` row. -/
structure Users where
  id : Int
  username : String
  email : String
  first_name : String
  last_name : String
  hashed_password : String
  role : String
  is_active : Bool
deriving DecidableEq, Repr

/-- models.py `TodoItem` row. -/
structure TodoItem where
  id : Int
  title : String
  description : Option String
  priority : Int
  completed : Bool
  owner_id : Int
deriving DecidableEq, Repr

/-- The persistent state: the two tables, plus the engine's id generators
(each insert receives the next fresh generated id). -/
structure DB where
  users : List Users
  todos : List TodoItem
  next_user_id : Int
  next_todo_id : Int
deriving DecidableEq, Repr

/-- routers/auth.py `CreateUserRequest`. -/
structure CreateUserRequest where
  username : String
  email : String
  first_name : String
  last_name : String
  password : String
  role : String
deriving DecidableEq, Repr

/-- routers/auth.py `UserResponse` as returned by `create_user`. -/
structure UserResponse where
  id : Int
  username : String
  email : String
  first_name : String
  last_name : String
  role : String
  is_active : Bool
  message : String
deriving DecidableEq, Repr

/-- routers/auth.py `create_user` (`POST /auth/register`): checks the
username, then the email, before inserting; on conflict raises the matching
custom exception and leaves the store untouched. -/
def create_user (db : DB) (user : CreateUserRequest) :
    Except HTTPException UserResponse × DB :=
  match db.users.find? (fun r => r.username == user.username) with
  | some _ => (.error (UsernameAlreadyExistsException user.username), db)
  | none =>
    match db.users.find? (fun r => r.email == user.email) with
    | some _ => (.error (EmailAlreadyExistsException user.email), db)
    | none =>
      let create_user_model : Users :=
        ⟨db.next_user_id, user.username, user.email, user.first_name, user.last_name,
         bcrypt_hash user.password, user.role, true⟩
      (.ok ⟨create_user_model.id, create_user_model.username, create_user_model.email,
            create_user_model.first_name, create_user_model.last_name,
            create_user_model.role, create_user_model.is_active,
            "User created successfully"⟩,
       ⟨db.users ++ [create_user_model], db.todos, db.next_user_id + 1, db.next_todo_id⟩)

/-- routers/auth.py `TokenResponse`. -/
structure TokenResponse where
  access_token : Token
  token_type : String
deriving DecidableEq, Repr

/-- routers/auth.py `get_token` (`POST /auth/token`): looks the user up by
username, verifies the password against the stored hash, then checks the
active flag, and only then issues the token. -/
def get_token (db : DB) (username password : String) (now : Int) :
    Except HTTPException TokenResponse :=
  match db.users.find? (fun r => r.username == username) with
  | none => .error (AuthenticationException "Invalid username or password")
  | some user =>
    if !bcrypt_verify password user.hashed_password then
      .error (AuthenticationException "Invalid username or password")
    else if !user.is_active then
      .error (AuthenticationException "Account is disabled")
    else
      .ok ⟨create_access_token ⟨some user.username, some user.id⟩ none now, "bearer"⟩

/-! ## Authorization Guard (routers/admin.py) -/

/-- routers/admin.py `get_admin_user`: 401 when unauthenticated, 404 when the
principal's user record is absent, 403 when its role is not admin, and the
unchanged principal otherwise. -/
def get_admin_user (user : Option Principal) (db : DB) : Except HTTPException Principal :=
  match user with
  | none => .error (HTTPException.plain 401 "Authentication required")
  | some u =>
    match db.users.find? (fun r => r.id == u.id) with
    | none => .error (HTTPException.plain 404 "User not found")
    | some db_user =>
      if db_user.role != "admin" then
        .error (HTTPException.plain 403 "Admin access required")
      else
        .ok u

/-! ## Todo Repository (routers/todos.py) -/

/-- routers/todos.py `TodoRequest`. -/
structure TodoRequest where
  title : String
  description : Option String
  priority : Int
  completed : Bool
deriving DecidableEq, Repr

/-- The pydantic `Field` constraints on `TodoRequest`: title 1 to 100
characters, description at most 500, priority 1 to 5. -/
def validTodoRequest (r : TodoRequest) : Bool :=
  decide (1 ≤ r.title.length) && decide (r.title.length ≤ 100) &&
  (match r.description with
   | none => true
   | some d => decide (d.length ≤ 500)) &&
  decide (1 ≤ r.priority) && decide (r.priority ≤ 5)

/-- The owner-scoped query shared by the single-item todo handlers:
`filter(TodoItem.id == todo_id, TodoItem.owner_id == user.get("id")).first()`. -/
def todo_query_first (db : DB) (todo_id owner_id : Int) : Option TodoItem :=
  db.todos.find? (fun t => t.id == todo_id && t.owner_id == owner_id)

/-- routers/todos.py `read_todo` (`GET /todos/t`). -/
def read_todo (user : Option Principal) (db : DB) (todo_id : Int) :
    Except HTTPException TodoItem :=
  match user with
  | none => .error (HTTPException.plain 401 "Not authenticated")
  | some u =>
    match todo_query_first db todo_id u.id with
    | none => .error (HTTPException.plain 404 "Todo item not found")
    | some todo => .ok todo

/-- routers/todos.py `create_todo` (`POST /todos`): inserts a row built from
the validated request fields plus the caller's id, receiving the next
generated id. -/
def create_todo (user : Option Principal) (todo_request : TodoRequest) (db : DB) :
    Except HTTPException TodoItem × DB :=
  match user with
  | none => (.error (HTTPException.plain 401 "Not authenticated"), db)
  | some u =>
    let new_todo : TodoItem :=
      ⟨db.next_todo_id, todo_request.title, todo_request.description,
       todo_request.priority, todo_request.completed, u.id⟩
    (.ok new_todo,
     ⟨db.users, db.todos ++ [new_todo], db.next_user_id, db.next_todo_id + 1⟩)

/-- Replace the first list element satisfying `p` (the row the query
returned, mutated in place by the session). -/
def replaceFirst (p : TodoItem → Bool) (new : TodoItem) : List TodoItem → List TodoItem
  | [] => []
  | x :: xs => if p x then new :: xs else x :: replaceFirst p new xs

/-- Remove the first list element satisfying `p` (the row the query returned,
deleted by the session). -/
def eraseFirst (p : TodoItem → Bool) : List TodoItem → List TodoItem
  | [] => []
  | x :: xs => if p x then xs else x :: eraseFirst p xs

/-- routers/todos.py `update_todo` (`PUT /todos/t`): full replace of the
request fields on the queried row (id and owner are not request fields and
stay). -/
def update_todo (user : Option Principal) (db : DB) (todo_request : TodoRequest)
    (todo_id : Int) : Except HTTPException TodoItem × DB :=
  match user with
  | none => (.error (HTTPException.plain 401 "Not authenticated"), db)
  | some u =>
    match todo_query_first db todo_id u.id with
    | none => (.error (HTTPException.plain 404 "Todo item not found"), db)
    | some todo =>
      let updated : TodoItem :=
        ⟨todo.id, todo_request.title, todo_request.description,
         todo_request.priority, todo_request.completed, todo.owner_id⟩
      (.ok updated,
       ⟨db.users,
        replaceFirst (fun t => t.id == todo_id && t.owner_id == u.id) updated db.todos,
        db.next_user_id, db.next_todo_id⟩)

/-- routers/todos.py `delete_todo` (`DELETE /todos/t`). -/
def delete_todo (user : Option Principal) (db : DB) (todo_id : Int) :
    Except HTTPException Unit × DB :=
  match user with
  | none => (.error (HTTPException.plain 401 "Not authenticated"), db)
  | some u =>
    match todo_query_first db todo_id u.id with
    | none => (.error (HTTPException.plain 404 "Todo item not found"), db)
    | some _ =>
      (.ok (),
       ⟨db.users, eraseFirst (fun t => t.id == todo_id && t.owner_id == u.id) db.todos,
        db.next_user_id, db.next_todo_id⟩)

/-- The item `create_todo` persists for owner `u` and request `req` on
state `db`. -/
def mkTodo (db : DB) (u : Principal) (req : TodoRequest) : TodoItem :=
  ⟨db.next_todo_id, req.title, req.description, req.priority, req.completed, u.id⟩

/-! ## Claim C1: integrity-error precedence -/

/-- C1 (amended): for every integrity error reaching the mapper, the response
follows the fixed precedence over the diagnostic text: username uniqueness
gives 409 USERNAME_ALREADY_EXISTS; otherwise email uniqueness gives 409
EMAIL_ALREADY_EXISTS; otherwise any uniqueness gives 409 DUPLICATE_RECORD;
otherwise a not-null violation gives 422 REQUIRED_FIELD_MISSING with the
offending field name in the context object whenever the field-name extraction
succeeds, while a not-null text on which the extraction raises (it contains a
period but the segment after the marker has none) makes the handler itself
raise, producing no mapped response; otherwise 400 CONSTRAINT_VIOLATION. -/
theorem integrity_error_precedence (msg f : String) :
    (username_unique_violation msg = true →
      integrity_error_handler msg = some usernameExistsResponse ∧
      usernameExistsResponse.status_code = 409 ∧
      usernameExistsResponse.content.lookup "error_code" =
        some (JVal.jstr "USERNAME_ALREADY_EXISTS")) ∧
    (username_unique_violation msg = false → email_unique_violation msg = true →
      integrity_error_handler msg = some emailExistsResponse ∧
      emailExistsResponse.status_code = 409 ∧
      emailExistsResponse.content.lookup "error_code" =
        some (JVal.jstr "EMAIL_ALREADY_EXISTS")) ∧
    (username_unique_violation msg = false → email_unique_violation msg = false →
      unique_violation msg = true →
      integrity_error_handler msg = some duplicateRecordResponse ∧
      duplicateRecordResponse.status_code = 409 ∧
      duplicateRecordResponse.content.lookup "error_code" =
        some (JVal.jstr "DUPLICATE_RECORD")) ∧
    (username_unique_violation msg = false → email_unique_violation msg = false →
      unique_violation msg = false → notnull_violation msg = true →
      extract_notnull_field msg = some f →
      integrity_error_handler msg = some (requiredFieldResponse f) ∧
      (requiredFieldResponse f).status_code = 422 ∧
      (requiredFieldResponse f).content.lookup "error_code" =
        some (JVal.jstr "REQUIRED_FIELD_MISSING") ∧
      (requiredFieldResponse f).content.lookup "context" =
        some (JVal.jobj [("field", f)])) ∧
    (username_unique_violation msg = false → email_unique_violation msg = false →
      unique_violation msg = false → notnull_violation msg = true →
      extract_notnull_field msg = none →
      integrity_error_handler msg = none) ∧
    (username_unique_violation msg = false → email_unique_violation msg = false →
      unique_violation msg = false → notnull_violation msg = false →
      integrity_error_handler msg = some (constraintViolationResponse msg) ∧
      (constraintViolationResponse msg).status_code = 400 ∧
      (constraintViolationResponse msg).content.lookup "error_code" =
        some (JVal.jstr "CONSTRAINT_VIOLATION")) := by
  refine ⟨?_, ?_, ?_, ?_, ?_, ?_⟩
  · intro h1
    exact ⟨by simp [integrity_error_handler, h1], by decide, by decide⟩
  · intro h1 h2
    exact ⟨by simp [integrity_error_handler, h1, h2], by decide, by decide⟩
  · intro h1 h2 h3
    exact ⟨by simp [integrity_error_handler, h1, h2, h3], by decide, by decide⟩
  · intro h1 h2 h3 h4 h5
    refine ⟨by simp [integrity_error_handler, h1, h2, h3, h4, h5], rfl, ?_, ?_⟩
    · simp [requiredFieldResponse, List.lookup]
    · simp [requiredFieldResponse, List.lookup]
  · intro h1 h2 h3 h4 h5
    simp [integrity_error_handler, h1, h2, h3, h4, h5]
  · intro h1 h2 h3 h4
    refine ⟨by simp [integrity_error_handler, h1, h2, h3, h4], rfl, ?_⟩
    simp [constraintViolationResponse, List.lookup]

/-- C1 witness: the first precedence rule evaluated on a concrete
username-uniqueness diagnostic. -/
theorem integrity_error_precedence_witness :
    integrity_error_handler "UNIQUE constraint failed: users.username" =
      some usernameExistsResponse ∧
    usernameExistsResponse.status_code = 409 ∧
    usernameExistsResponse.content.lookup "error_code" =
      some (JVal.jstr "USERNAME_ALREADY_EXISTS") :=
  (integrity_error_precedence "UNIQUE constraint failed: users.username" "x").1 (by decide)

/-- C1 counterexample: the concrete diagnostic below is a not-null violation
and no uniqueness violation, yet the handler yields no 422 response at all:
the Python field-name extraction raises IndexError (the text contains a
period while the segment after the not-null marker has none), so the claimed
422 REQUIRED_FIELD_MISSING response is never produced. -/
theorem integrity_error_notnull_no_response :
    notnull_violation "x.y NOT NULL constraint failed: title" = true ∧
    unique_violation "x.y NOT NULL constraint failed: title" = false ∧
    integrity_error_handler "x.y NOT NULL constraint failed: title" = none := by decide

/-! ## Claim C2: uniform envelope shape -/

/-- C2 (amended): every Error Mapper branch emits a body whose error field is
true and whose status_code field equals the HTTP status of the response;
every branch except the generic 400 constraint-violation fallback of the
integrity handler carries exactly the envelope keys error, message,
error_code, status_code with context optional, and that fallback carries
exactly the envelope keys followed by an additional details key. -/
theorem error_envelope_shape (exc1 exc2 : HTTPException) (msg : String) (r : Response) :
    uniformEnvelope (custom_http_exception_handler exc1) ∧
    uniformEnvelope sqlalchemy_error_handler ∧
    uniformEnvelope (http_exception_handler exc2) ∧
    uniformEnvelope general_exception_handler ∧
    (integrity_error_handler msg = some r →
      r.content.lookup "error" = some (JVal.jbool true) ∧
      r.content.lookup "status_code" = some (JVal.jnat r.status_code) ∧
      (uniformEnvelope r ∨ r.content.map Prod.fst = envelopeKeys ++ ["details"])) := by
  refine ⟨?_, by decide, ?_, by decide, ?_⟩
  · by_cases hc : exc1.context.isEmpty <;>
      simp [custom_http_exception_handler, uniformEnvelope, envelopeKeys, List.lookup, hc]
  · simp [http_exception_handler, uniformEnvelope, envelopeKeys, List.lookup]
  · intro h
    rw [integrity_error_handler] at h
    split at h
    · cases h
      exact ⟨by decide, by decide, Or.inl (by decide)⟩
    · split at h
      · cases h
        exact ⟨by decide, by decide, Or.inl (by decide)⟩
      · split at h
        · cases h
          exact ⟨by decide, by decide, Or.inl (by decide)⟩
        · split at h
          · cases hext : extract_notnull_field msg with
            | none => rw [hext] at h; cases h
            | some f =>
              rw [hext] at h
              cases h
              refine ⟨?_, ?_, Or.inl ?_⟩ <;>
                simp [requiredFieldResponse, uniformEnvelope, envelopeKeys, List.lookup]
          · cases h
            refine ⟨?_, ?_, Or.inr ?_⟩ <;>
              simp [constraintViolationResponse, envelopeKeys, List.lookup]

/-- C2 witness: the integrity clause evaluated on a concrete unrecognized
diagnostic, and the custom-exception clause on a concrete exception. -/
theorem error_envelope_shape_witness :
    uniformEnvelope (custom_http_exception_handler (AuthenticationException "bad")) ∧
    ((constraintViolationResponse "boom").content.lookup "error" =
       some (JVal.jbool true) ∧
     (constraintViolationResponse "boom").content.lookup "status_code" =
       some (JVal.jnat (constraintViolationResponse "boom").status_code) ∧
     (uniformEnvelope (constraintViolationResponse "boom") ∨
      (constraintViolationResponse "boom").content.map Prod.fst =
        envelopeKeys ++ ["details"])) :=
  ⟨(error_envelope_shape (AuthenticationException "bad") (AuthenticationException "bad")
      "boom" (constraintViolationResponse "boom")).1,
   (error_envelope_shape (AuthenticationException "bad") (AuthenticationException "bad")
      "boom" (constraintViolationResponse "boom")).2.2.2.2 (by decide)⟩

/-- C2 counterexample: the 400 CONSTRAINT_VIOLATION branch of the integrity
handler, on a concrete diagnostic, produces a body with a fifth key details
beyond the claimed envelope, so the body does not have exactly the uniform
envelope shape. -/
theorem constraint_violation_body_extra_key :
    integrity_error_handler "boom" = some (constraintViolationResponse "boom") ∧
    ¬ uniformEnvelope (constraintViolationResponse "boom") ∧
    (constraintViolationResponse "boom").content.map Prod.fst =
      envelopeKeys ++ ["details"] := by decide

/-- Equality of handler outcomes is decidable, so that witnesses evaluate by
`decide`. -/
instance {ε α : Type} [DecidableEq ε] [DecidableEq α] : DecidableEq (Except ε α) := fun x y =>
  match x, y with
  | .ok a, .ok b =>
    if h : a = b then isTrue (h ▸ rfl) else isFalse (fun hh => h (Except.ok.inj hh))
  | .error a, .error b =>
    if h : a = b then isTrue (h ▸ rfl) else isFalse (fun hh => h (Except.error.inj hh))
  | .ok _, .error _ => isFalse (fun hh => Except.noConfusion hh)
  | .error _, .ok _ => isFalse (fun hh => Except.noConfusion hh)

/-! ## Claim C3: token issuance and resolution -/

/-- C3: resolving a token issued for a subject strictly before its expiry
returns the principal with exactly that username and user id; resolution
fails with the 401 could-not-validate error whenever the signature is invalid
(different key), the expiry lies in the past (which covers a token issued
with an already-past expiry), or the sub or user_id claim is absent. -/
theorem token_resolution (username : String) (id : Int) (expires_delta : Option Int)
    (issued_at now : Int) (t : Token) (p : Payload) :
    (now < (create_access_token ⟨some username, some id⟩ expires_delta issued_at).payload.exp →
      get_current_user (create_access_token ⟨some username, some id⟩ expires_delta issued_at)
        now = .ok ⟨username, id⟩) ∧
    (t.key ≠ SECRET_KEY →
      get_current_user t now = .error (HTTPException.plain 401 "Could not validate user")) ∧
    (t.payload.exp < now →
      get_current_user t now = .error (HTTPException.plain 401 "Could not validate user")) ∧
    ((p.sub = none ∨ p.user_id = none) →
      get_current_user ⟨p, SECRET_KEY⟩ now =
        .error (HTTPException.plain 401 "Could not validate user")) := by
  refine ⟨?_, ?_, ?_, ?_⟩
  · intro h
    simp only [create_access_token, jwtEncode] at h ⊢
    simp [get_current_user, jwtDecode, not_lt_of_gt h]
  · intro h
    simp [get_current_user, jwtDecode, h]
  · intro h
    by_cases hk : t.key = SECRET_KEY <;> simp [get_current_user, jwtDecode, hk, h]
  · intro h
    by_cases he : p.exp < now
    · simp [get_current_user, jwtDecode, he]
    · rcases h with h | h
      · simp [get_current_user, jwtDecode, he, h]
      · cases hp : p.sub <;> simp [get_current_user, jwtDecode, he, h, hp]

/-- C3 witness: a token issued for alice resolved at a time before its
default expiry, a token signed with a different key, a token issued with a
negative lifetime so its expiry is already past, and a token lacking the sub
claim. -/
theorem token_resolution_witness :
    get_current_user (create_access_token ⟨some "alice", some 1⟩ none 0) 60 =
      .ok ⟨"alice", 1⟩ ∧
    get_current_user ⟨⟨some "alice", some 1, 1000⟩, "wrong-key"⟩ 0 =
      .error (HTTPException.plain 401 "Could not validate user") ∧
    get_current_user (create_access_token ⟨some "alice", some 1⟩ (some (-60)) 0) 0 =
      .error (HTTPException.plain 401 "Could not validate user") ∧
    get_current_user ⟨⟨none, some 1, 1000⟩, SECRET_KEY⟩ 0 =
      .error (HTTPException.plain 401 "Could not validate user") :=
  ⟨(token_resolution "alice" 1 none 0 60 ⟨⟨some "alice", some 1, 1000⟩, "wrong-key"⟩
      ⟨none, some 1, 1000⟩).1 (by decide),
   (token_resolution "alice" 1 none 0 0 ⟨⟨some "alice", some 1, 1000⟩, "wrong-key"⟩
      ⟨none, some 1, 1000⟩).2.1 (by decide),
   (token_resolution "alice" 1 (some (-60)) 0 0
      (create_access_token ⟨some "alice", some 1⟩ (some (-60)) 0)
      ⟨none, some 1, 1000⟩).2.2.1 (by decide),
   (token_resolution "alice" 1 none 0 0 ⟨⟨some "alice", some 1, 1000⟩, "wrong-key"⟩
      ⟨none, some 1, 1000⟩).2.2.2 (Or.inl rfl)⟩

/-! ## Claim C5: login success and wrong password -/

/-- C5: for a stored user that exists, is active, and whose stored hash
verifies the supplied password, the token endpoint returns the bearer token
response; the same call with a password that does not verify fails with the
401 invalid-credentials authentication error. -/
theorem login_success_and_wrong_password (db : DB) (username password wrong : String)
    (u : Users) (now : Int)
    (hfind : db.users.find? (fun r => r.username == username) = some u)
    (hactive : u.is_active = true)
    (hverify : bcrypt_verify password u.hashed_password = true)
    (hwrong : bcrypt_verify wrong u.hashed_password = false) :
    get_token db username password now =
      .ok ⟨create_access_token ⟨some u.username, some u.id⟩ none now, "bearer"⟩ ∧
    get_token db username wrong now =
      .error (AuthenticationException "Invalid username or password") ∧
    (AuthenticationException "Invalid username or password").status_code = 401 := by
  refine ⟨?_, ?_, rfl⟩
  · simp [get_token, hfind, hverify, hactive]
  · simp [get_token, hfind, hwrong]

/-- C5 witness: a concrete single-user store with an active, correctly-hashed
alice, queried with the right and then a wrong password. -/
theorem login_success_and_wrong_password_witness :
    get_token ⟨[⟨1, "alice", "a@x.io", "A", "L", bcrypt_hash "pw1", "user", true⟩], [], 2, 1⟩
        "alice" "pw1" 0 =
      .ok ⟨create_access_token ⟨some "alice", some 1⟩ none 0, "bearer"⟩ ∧
    get_token ⟨[⟨1, "alice", "a@x.io", "A", "L", bcrypt_hash "pw1", "user", true⟩], [], 2, 1⟩
        "alice" "nope" 0 =
      .error (AuthenticationException "Invalid username or password") ∧
    (AuthenticationException "Invalid username or password").status_code = 401 :=
  login_success_and_wrong_password
    ⟨[⟨1, "alice", "a@x.io", "A", "L", bcrypt_hash "pw1", "user", true⟩], [], 2, 1⟩
    "alice" "pw1" "nope" ⟨1, "alice", "a@x.io", "A", "L", bcrypt_hash "pw1", "user", true⟩ 0
    (by decide) (by decide) (by decide) (by decide)

/-! ## Claim C10: the active check runs after password verification -/

/-- C10: in the token endpoint the is_active check runs only after password
verification: a stored user whose supplied password does not verify gets the
generic invalid-credentials 401 regardless of the active flag; the
account-disabled message appears only when the password verifies and the
user is inactive; an absent user also gets the generic message. -/
theorem active_check_after_password (db : DB) (username password : String) (u : Users)
    (now : Int) :
    (db.users.find? (fun r => r.username == username) = some u →
      bcrypt_verify password u.hashed_password = false →
      get_token db username password now =
        .error (AuthenticationException "Invalid username or password")) ∧
    (db.users.find? (fun r => r.username == username) = some u →
      bcrypt_verify password u.hashed_password = true → u.is_active = false →
      get_token db username password now =
        .error (AuthenticationException "Account is disabled")) ∧
    (db.users.find? (fun r => r.username == username) = none →
      get_token db username password now =
        .error (AuthenticationException "Invalid username or password")) := by
  refine ⟨?_, ?_, ?_⟩
  · intro hfind hverify
    simp [get_token, hfind, hverify]
  · intro hfind hverify hinactive
    simp [get_token, hfind, hverify, hinactive]
  · intro hfind
    simp [get_token, hfind]

/-- C10 witness: a deactivated stored user bob; with a wrong password the
failure is the generic invalid-credentials message despite the inactive
flag, and with the verifying password it is the account-disabled message. -/
theorem active_check_after_password_witness :
    get_token ⟨[⟨1, "bob", "b@x.io", "B", "L", bcrypt_hash "pw1", "user", false⟩], [], 2, 1⟩
        "bob" "nope" 0 =
      .error (AuthenticationException "Invalid username or password") ∧
    get_token ⟨[⟨1, "bob", "b@x.io", "B", "L", bcrypt_hash "pw1", "user", false⟩], [], 2, 1⟩
        "bob" "pw1" 0 =
      .error (AuthenticationException "Account is disabled") :=
  ⟨(active_check_after_password
      ⟨[⟨1, "bob", "b@x.io", "B", "L", bcrypt_hash "pw1", "user", false⟩], [], 2, 1⟩
      "bob" "nope" ⟨1, "bob", "b@x.io", "B", "L", bcrypt_hash "pw1", "user", false⟩ 0).1
      (by decide) (by decide),
   (active_check_after_password
      ⟨[⟨1, "bob", "b@x.io", "B", "L", bcrypt_hash "pw1", "user", false⟩], [], 2, 1⟩
      "bob" "pw1" ⟨1, "bob", "b@x.io", "B", "L", bcrypt_hash "pw1", "user", false⟩ 0).2.1
      (by decide) (by decide) (by decide)⟩

/-! ## Claim C6: deactivated-user login message -/

/-- C6 (amended): a login attempt naming a deactivated user whose supplied
password verifies against the stored hash fails with the account-disabled
message, which is distinct from the invalid-credentials message used for an
absent user or a wrong password; with a non-verifying password the failure
is the generic invalid-credentials message instead. -/
theorem deactivated_login_distinct_message (db : DB) (username password : String)
    (u : Users) (now : Int)
    (hfind : db.users.find? (fun r => r.username == username) = some u)
    (hinactive : u.is_active = false)
    (hverify : bcrypt_verify password u.hashed_password = true) :
    get_token db username password now =
      .error (AuthenticationException "Account is disabled") ∧
    (AuthenticationException "Account is disabled").detail ≠
      (AuthenticationException "Invalid username or password").detail := by
  refine ⟨?_, by decide⟩
  simp [get_token, hfind, hverify, hinactive]

/-- C6 witness: the deactivated user bob with the verifying password receives
the distinct account-disabled message. -/
theorem deactivated_login_distinct_message_witness :
    get_token ⟨[⟨1, "bob", "b@x.io", "B", "L", bcrypt_hash "pw1", "user", false⟩], [], 2, 1⟩
        "bob" "pw1" 0 =
      .error (AuthenticationException "Account is disabled") ∧
    (AuthenticationException "Account is disabled").detail ≠
      (AuthenticationException "Invalid username or password").detail :=
  deactivated_login_distinct_message
    ⟨[⟨1, "bob", "b@x.io", "B", "L", bcrypt_hash "pw1", "user", false⟩], [], 2, 1⟩
    "bob" "pw1" ⟨1, "bob", "b@x.io", "B", "L", bcrypt_hash "pw1", "user", false⟩ 0
    (by decide) (by decide) (by decide)

/-- C6 counterexample: a login attempt naming the deactivated user bob with a
wrong password fails with exactly the invalid-credentials message, not a
distinct one, so the claim does not hold for every attempt naming a
deactivated user. -/
theorem deactivated_login_generic_message :
    ((⟨[⟨1, "bob", "b@x.io", "B", "L", bcrypt_hash "pw1", "user", false⟩], [], 2, 1⟩ :
        DB).users.find? (fun r => r.username == "bob")).map Users.is_active =
      some false ∧
    get_token ⟨[⟨1, "bob", "b@x.io", "B", "L", bcrypt_hash "pw1", "user", false⟩], [], 2, 1⟩
        "bob" "nope" 0 =
      .error (AuthenticationException "Invalid username or password") := by decide

/-! ## Claim C7: registration conflict checks -/

/-- C7: registration fails with 409 USERNAME_ALREADY_EXISTS when the
requested username is taken, and with 409 EMAIL_ALREADY_EXISTS when the
username is free but the email is taken; both checks run before the insert,
and on either failure the user table is returned unchanged, so no record is
created. -/
theorem register_conflict_checks (db : DB) (req : CreateUserRequest) :
    ((db.users.find? (fun r => r.username == req.username)).isSome = true →
      create_user db req = (.error (UsernameAlreadyExistsException req.username), db)) ∧
    (db.users.find? (fun r => r.username == req.username) = none →
      (db.users.find? (fun r => r.email == req.email)).isSome = true →
      create_user db req = (.error (EmailAlreadyExistsException req.email), db)) ∧
    (UsernameAlreadyExistsException req.username).status_code = 409 ∧
    (UsernameAlreadyExistsException req.username).error_code =
      some "USERNAME_ALREADY_EXISTS" ∧
    (EmailAlreadyExistsException req.email).status_code = 409 ∧
    (EmailAlreadyExistsException req.email).error_code = some "EMAIL_ALREADY_EXISTS" := by
  refine ⟨?_, ?_, rfl, rfl, rfl, rfl⟩
  · intro h
    rcases Option.isSome_iff_exists.mp h with ⟨u, hu⟩
    simp [create_user, hu]
  · intro h1 h2
    rcases Option.isSome_iff_exists.mp h2 with ⟨u, hu⟩
    simp [create_user, h1, hu]

/-- C7 witness: a store already holding alice; registering the same username
fails with the username conflict and leaves the store unchanged, and a free
username with alice's email fails with the email conflict. -/
theorem register_conflict_checks_witness :
    create_user ⟨[⟨1, "alice", "a@x.io", "A", "L", bcrypt_hash "pw1", "user", true⟩], [], 2, 1⟩
        ⟨"alice", "other@x.io", "A", "L", "pw2", "user"⟩ =
      (.error (UsernameAlreadyExistsException "alice"),
       ⟨[⟨1, "alice", "a@x.io", "A", "L", bcrypt_hash "pw1", "user", true⟩], [], 2, 1⟩) ∧
    create_user ⟨[⟨1, "alice", "a@x.io", "A", "L", bcrypt_hash "pw1", "user", true⟩], [], 2, 1⟩
        ⟨"bob", "a@x.io", "B", "L", "pw2", "user"⟩ =
      (.error (EmailAlreadyExistsException "a@x.io"),
       ⟨[⟨1, "alice", "a@x.io", "A", "L", bcrypt_hash "pw1", "user", true⟩], [], 2, 1⟩) :=
  ⟨(register_conflict_checks
      ⟨[⟨1, "alice", "a@x.io", "A", "L", bcrypt_hash "pw1", "user", true⟩], [], 2, 1⟩
      ⟨"alice", "other@x.io", "A", "L", "pw2", "user"⟩).1 (by decide),
   (register_conflict_checks
      ⟨[⟨1, "alice", "a@x.io", "A", "L", bcrypt_hash "pw1", "user", true⟩], [], 2, 1⟩
      ⟨"bob", "a@x.io", "B", "L", "pw2", "user"⟩).2.1 (by decide) (by decide)⟩

/-! ## Claim C8: the admin guard -/

/-- C8: for an authenticated principal the admin guard fails with 404 when no
user record with the principal's id exists, fails with 403 when the record
exists but its role is not admin, and returns the principal unchanged when
the role is admin. -/
theorem admin_guard (db : DB) (p : Principal) (u : Users) :
    (db.users.find? (fun r => r.id == p.id) = none →
      get_admin_user (some p) db = .error (HTTPException.plain 404 "User not found")) ∧
    (db.users.find? (fun r => r.id == p.id) = some u → u.role ≠ "admin" →
      get_admin_user (some p) db = .error (HTTPException.plain 403 "Admin access required")) ∧
    (db.users.find? (fun r => r.id == p.id) = some u → u.role = "admin" →
      get_admin_user (some p) db = .ok p) := by
  refine ⟨?_, ?_, ?_⟩
  · intro h
    simp [get_admin_user, h]
  · intro h hrole
    simp [get_admin_user, h, hrole]
  · intro h hrole
    simp [get_admin_user, h, hrole]

/-- C8 witness: the guard on a store holding only the non-admin bob, for the
principals of bob (403), an absent id (404), and, on a store holding the
admin root, for root (pass-through). -/
theorem admin_guard_witness :
    get_admin_user (some ⟨"carol", 9⟩)
        ⟨[⟨1, "bob", "b@x.io", "B", "L", bcrypt_hash "pw1", "user", true⟩], [], 2, 1⟩ =
      .error (HTTPException.plain 404 "User not found") ∧
    get_admin_user (some ⟨"bob", 1⟩)
        ⟨[⟨1, "bob", "b@x.io", "B", "L", bcrypt_hash "pw1", "user", true⟩], [], 2, 1⟩ =
      .error (HTTPException.plain 403 "Admin access required") ∧
    get_admin_user (some ⟨"root", 1⟩)
        ⟨[⟨1, "root", "r@x.io", "R", "T", bcrypt_hash "pw1", "admin", true⟩], [], 2, 1⟩ =
      .ok ⟨"root", 1⟩ :=
  ⟨(admin_guard ⟨[⟨1, "bob", "b@x.io", "B", "L", bcrypt_hash "pw1", "user", true⟩], [], 2, 1⟩
      ⟨"carol", 9⟩ ⟨1, "bob", "b@x.io", "B", "L", bcrypt_hash "pw1", "user", true⟩).1
      (by decide),
   (admin_guard ⟨[⟨1, "bob", "b@x.io", "B", "L", bcrypt_hash "pw1", "user", true⟩], [], 2, 1⟩
      ⟨"bob", 1⟩ ⟨1, "bob", "b@x.io", "B", "L", bcrypt_hash "pw1", "user", true⟩).2.1
      (by decide) (by decide),
   (admin_guard ⟨[⟨1, "root", "r@x.io", "R", "T", bcrypt_hash "pw1", "admin", true⟩], [], 2, 1⟩
      ⟨"root", 1⟩ ⟨1, "root", "r@x.io", "R", "T", bcrypt_hash "pw1", "admin", true⟩).2.2
      (by decide) (by decide)⟩

/-! ## List lemmas for the store proofs -/

/-- Searching a cons whose head matches returns the head. -/
theorem find?_cons_self {α : Type} {p : α → Bool} {a : α} (h : p a = true) (l : List α) :
    (a :: l).find? p = some a :=
  List.find?_cons_of_pos _ h

/-- Searching a concatenation whose first part has no match searches the
second part. -/
theorem find?_append_of_none {α : Type} {p : α → Bool} {l₁ : List α} (l₂ : List α)
    (h : l₁.find? p = none) : (l₁ ++ l₂).find? p = l₂.find? p := by
  induction l₁ with
  | nil => simp
  | cons x xs ih =>
    cases hx : p x with
    | true => rw [List.find?_cons_of_pos _ hx] at h; cases h
    | false =>
      rw [List.find?_cons_of_neg _ (by simp [hx])] at h
      rw [List.cons_append, List.find?_cons_of_neg _ (by simp [hx])]
      exact ih h

/-- Replacement skips over an unmatched first part. -/
theorem replaceFirst_append_of_none {p : TodoItem → Bool} {l₁ : List TodoItem}
    (new : TodoItem) (l₂ : List TodoItem) (h : l₁.find? p = none) :
    replaceFirst p new (l₁ ++ l₂) = l₁ ++ replaceFirst p new l₂ := by
  induction l₁ with
  | nil => simp
  | cons x xs ih =>
    cases hx : p x with
    | true => rw [List.find?_cons_of_pos _ hx] at h; cases h
    | false =>
      rw [List.find?_cons_of_neg _ (by simp [hx])] at h
      simp [replaceFirst, hx, ih h]

/-- Erasure skips over an unmatched first part. -/
theorem eraseFirst_append_of_none {p : TodoItem → Bool} {l₁ : List TodoItem}
    (l₂ : List TodoItem) (h : l₁.find? p = none) :
    eraseFirst p (l₁ ++ l₂) = l₁ ++ eraseFirst p l₂ := by
  induction l₁ with
  | nil => simp
  | cons x xs ih =>
    cases hx : p x with
    | true => rw [List.find?_cons_of_pos _ hx] at h; cases h
    | false =>
      rw [List.find?_cons_of_neg _ (by simp [hx])] at h
      simp [eraseFirst, hx, ih h]

/-! ## Claim C4: non-owners see 404, indistinguishable from absence -/

/-- The same store with every todo of the given id removed: the world in
which the item does not exist at all. -/
def removeId (db : DB) (todo_id : Int) : DB :=
  ⟨db.users, db.todos.filter (fun t => !(t.id == todo_id)), db.next_user_id, db.next_todo_id⟩

/-- C4: for a stored todo item and an authenticated caller owning no todo of
that id (in particular not this item's owner), get, update and delete on the
item's id all fail with the 404 not-found error, never 403, the store is
left unchanged, and each response equals the response the same caller gets
on the store from which the item is absent altogether, so existence is not
revealed. -/
theorem nonowner_sees_404 (db : DB) (caller : Principal) (item : TodoItem)
    (req : TodoRequest)
    (_hmem : item ∈ db.todos)
    (hnotown : ∀ x ∈ db.todos, x.id = item.id → x.owner_id ≠ caller.id) :
    read_todo (some caller) db item.id =
      .error (HTTPException.plain 404 "Todo item not found") ∧
    update_todo (some caller) db req item.id =
      (.error (HTTPException.plain 404 "Todo item not found"), db) ∧
    delete_todo (some caller) db item.id =
      (.error (HTTPException.plain 404 "Todo item not found"), db) ∧
    read_todo (some caller) db item.id =
      read_todo (some caller) (removeId db item.id) item.id ∧
    (update_todo (some caller) db req item.id).1 =
      (update_todo (some caller) (removeId db item.id) req item.id).1 ∧
    (delete_todo (some caller) db item.id).1 =
      (delete_todo (some caller) (removeId db item.id) item.id).1 ∧
    (HTTPException.plain 404 "Todo item not found").status_code ≠ 403 := by
  have hfind : db.todos.find? (fun t => t.id == item.id && t.owner_id == caller.id) = none := by
    rw [List.find?_eq_none]
    intro x hx hpx
    simp only [Bool.and_eq_true, beq_iff_eq] at hpx
    exact hnotown x hx hpx.1 hpx.2
  have hfind2 : (removeId db item.id).todos.find?
      (fun t => t.id == item.id && t.owner_id == caller.id) = none := by
    rw [List.find?_eq_none]
    intro x hx hpx
    simp only [Bool.and_eq_true, beq_iff_eq] at hpx
    exact hnotown x (List.mem_of_mem_filter hx) hpx.1 hpx.2
  refine ⟨?_, ?_, ?_, ?_, ?_, ?_, by decide⟩
  · simp [read_todo, todo_query_first, hfind]
  · simp [update_todo, todo_query_first, hfind]
  · simp [delete_todo, todo_query_first, hfind]
  · simp [read_todo, todo_query_first, hfind, hfind2]
  · simp [update_todo, todo_query_first, hfind, hfind2]
  · simp [delete_todo, todo_query_first, hfind, hfind2]

/-- C4 witness: a store holding one todo of user 7, queried by the
authenticated caller bob with id 2. -/
theorem nonowner_sees_404_witness :
    read_todo (some ⟨"bob", 2⟩) ⟨[], [⟨5, "secret", none, 3, false, 7⟩], 1, 6⟩ 5 =
      .error (HTTPException.plain 404 "Todo item not found") ∧
    update_todo (some ⟨"bob", 2⟩) ⟨[], [⟨5, "secret", none, 3, false, 7⟩], 1, 6⟩
        ⟨"x", none, 1, false⟩ 5 =
      (.error (HTTPException.plain 404 "Todo item not found"),
       ⟨[], [⟨5, "secret", none, 3, false, 7⟩], 1, 6⟩) ∧
    delete_todo (some ⟨"bob", 2⟩) ⟨[], [⟨5, "secret", none, 3, false, 7⟩], 1, 6⟩ 5 =
      (.error (HTTPException.plain 404 "Todo item not found"),
       ⟨[], [⟨5, "secret", none, 3, false, 7⟩], 1, 6⟩) ∧
    read_todo (some ⟨"bob", 2⟩) ⟨[], [⟨5, "secret", none, 3, false, 7⟩], 1, 6⟩ 5 =
      read_todo (some ⟨"bob", 2⟩)
        (removeId ⟨[], [⟨5, "secret", none, 3, false, 7⟩], 1, 6⟩ 5) 5 ∧
    (update_todo (some ⟨"bob", 2⟩) ⟨[], [⟨5, "secret", none, 3, false, 7⟩], 1, 6⟩
        ⟨"x", none, 1, false⟩ 5).1 =
      (update_todo (some ⟨"bob", 2⟩) (removeId ⟨[], [⟨5, "secret", none, 3, false, 7⟩], 1, 6⟩ 5)
        ⟨"x", none, 1, false⟩ 5).1 ∧
    (delete_todo (some ⟨"bob", 2⟩) ⟨[], [⟨5, "secret", none, 3, false, 7⟩], 1, 6⟩ 5).1 =
      (delete_todo (some ⟨"bob", 2⟩)
        (removeId ⟨[], [⟨5, "secret", none, 3, false, 7⟩], 1, 6⟩ 5) 5).1 ∧
    (HTTPException.plain 404 "Todo item not found").status_code ≠ 403 :=
  nonowner_sees_404 ⟨[], [⟨5, "secret", none, 3, false, 7⟩], 1, 6⟩ ⟨"bob", 2⟩
    ⟨5, "secret", none, 3, false, 7⟩ ⟨"x", none, 1, false⟩ (by decide) (by decide)

/-! ## Claim C9: create, update, delete round trips -/

/-- C9: on a store where the next generated id is fresh for the owner, create
with valid fields returns an item carrying exactly the supplied field values
and a subsequent get returns that same item; update with valid fields
returns the item with the new values and a subsequent get reflects them;
delete succeeds and a subsequent get of the same id fails with the 404
not-found error. -/
theorem todo_roundtrip (db : DB) (u : Principal) (req req2 : TodoRequest)
    (_hvalid : validTodoRequest req = true) (_hvalid2 : validTodoRequest req2 = true)
    (hfresh : db.todos.find?
      (fun t => t.id == db.next_todo_id && t.owner_id == u.id) = none) :
    (create_todo (some u) req db).1 = .ok (mkTodo db u req) ∧
    (mkTodo db u req).title = req.title ∧
    (mkTodo db u req).description = req.description ∧
    (mkTodo db u req).priority = req.priority ∧
    (mkTodo db u req).completed = req.completed ∧
    read_todo (some u) (create_todo (some u) req db).2 db.next_todo_id =
      .ok (mkTodo db u req) ∧
    (update_todo (some u) (create_todo (some u) req db).2 req2 db.next_todo_id).1 =
      .ok (mkTodo db u req2) ∧
    read_todo (some u)
        (update_todo (some u) (create_todo (some u) req db).2 req2 db.next_todo_id).2
        db.next_todo_id =
      .ok (mkTodo db u req2) ∧
    (delete_todo (some u)
        (update_todo (some u) (create_todo (some u) req db).2 req2 db.next_todo_id).2
        db.next_todo_id).1 = .ok () ∧
    read_todo (some u)
        (delete_todo (some u)
          (update_todo (some u) (create_todo (some u) req db).2 req2 db.next_todo_id).2
          db.next_todo_id).2
        db.next_todo_id =
      .error (HTTPException.plain 404 "Todo item not found") := by
  have hp1 : (fun t => t.id == db.next_todo_id && t.owner_id == u.id) (mkTodo db u req)
      = true := by simp [mkTodo]
  have hp2 : (fun t => t.id == db.next_todo_id && t.owner_id == u.id) (mkTodo db u req2)
      = true := by simp [mkTodo]
  have hc2 : (create_todo (some u) req db).2 =
      ⟨db.users, db.todos ++ [mkTodo db u req], db.next_user_id, db.next_todo_id + 1⟩ := rfl
  have hfind1 : (db.todos ++ [mkTodo db u req]).find?
      (fun t => t.id == db.next_todo_id && t.owner_id == u.id) = some (mkTodo db u req) := by
    rw [find?_append_of_none _ hfresh]
    exact @find?_cons_self TodoItem (fun t => t.id == db.next_todo_id && t.owner_id == u.id)
      (mkTodo db u req) hp1 []
  have hfind2 : (db.todos ++ [mkTodo db u req2]).find?
      (fun t => t.id == db.next_todo_id && t.owner_id == u.id) = some (mkTodo db u req2) := by
    rw [find?_append_of_none _ hfresh]
    exact @find?_cons_self TodoItem (fun t => t.id == db.next_todo_id && t.owner_id == u.id)
      (mkTodo db u req2) hp2 []
  have hup : update_todo (some u) (create_todo (some u) req db).2 req2 db.next_todo_id =
      (.ok (mkTodo db u req2),
       ⟨db.users, db.todos ++ [mkTodo db u req2], db.next_user_id, db.next_todo_id + 1⟩) := by
    rw [hc2]
    simp only [update_todo, todo_query_first, hfind1]
    rw [replaceFirst_append_of_none _ _ hfresh]
    simp [replaceFirst, hp1, mkTodo]
  have hdel : delete_todo (some u)
      (⟨db.users, db.todos ++ [mkTodo db u req2], db.next_user_id, db.next_todo_id + 1⟩ : DB)
      db.next_todo_id =
      (.ok (), ⟨db.users, db.todos, db.next_user_id, db.next_todo_id + 1⟩) := by
    simp only [delete_todo, todo_query_first, hfind2]
    rw [eraseFirst_append_of_none _ hfresh]
    simp [eraseFirst, hp2]
  refine ⟨rfl, rfl, rfl, rfl, rfl, ?_, ?_, ?_, ?_, ?_⟩
  · rw [hc2]
    simp only [read_todo, todo_query_first, hfind1]
  · rw [hup]
  · rw [hup]
    simp only [read_todo, todo_query_first, hfind2]
  · rw [hup, hdel]
  · rw [hup, hdel]
    simp only [read_todo, todo_query_first, hfresh]

/-- C9 witness: the round trip evaluated on the empty store for owner alice,
creating a valid item, updating it to new valid values, and deleting it. -/
theorem todo_roundtrip_witness :
    (create_todo (some ⟨"alice", 1⟩) ⟨"buy milk", some "two liters", 3, false⟩
        ⟨[], [], 1, 1⟩).1 =
      .ok (mkTodo ⟨[], [], 1, 1⟩ ⟨"alice", 1⟩ ⟨"buy milk", some "two liters", 3, false⟩) ∧
    (mkTodo ⟨[], [], 1, 1⟩ ⟨"alice", 1⟩ ⟨"buy milk", some "two liters", 3, false⟩).title =
      "buy milk" ∧
    read_todo (some ⟨"alice", 1⟩)
        (create_todo (some ⟨"alice", 1⟩) ⟨"buy milk", some "two liters", 3, false⟩
          ⟨[], [], 1, 1⟩).2 1 =
      .ok (mkTodo ⟨[], [], 1, 1⟩ ⟨"alice", 1⟩ ⟨"buy milk", some "two liters", 3, false⟩) ∧
    read_todo (some ⟨"alice", 1⟩)
        (update_todo (some ⟨"alice", 1⟩)
          (create_todo (some ⟨"alice", 1⟩) ⟨"buy milk", some "two liters", 3, false⟩
            ⟨[], [], 1, 1⟩).2
          ⟨"buy oat milk", none, 5, true⟩ 1).2 1 =
      .ok (mkTodo ⟨[], [], 1, 1⟩ ⟨"alice", 1⟩ ⟨"buy oat milk", none, 5, true⟩) ∧
    read_todo (some ⟨"alice", 1⟩)
        (delete_todo (some ⟨"alice", 1⟩)
          (update_todo (some ⟨"alice", 1⟩)
            (create_todo (some ⟨"alice", 1⟩) ⟨"buy milk", some "two liters", 3, false⟩
              ⟨[], [], 1, 1⟩).2
            ⟨"buy oat milk", none, 5, true⟩ 1).2 1).2 1 =
      .error (HTTPException.plain 404 "Todo item not found") := by
  have h := todo_roundtrip ⟨[], [], 1, 1⟩ ⟨"alice", 1⟩
    ⟨"buy milk", some "two liters", 3, false⟩ ⟨"buy oat milk", none, 5, true⟩
    (by decide) (by decide) (by decide)
  exact ⟨h.1, h.2.1, h.2.2.2.2.2.1, h.2.2.2.2.2.2.2.1, h.2.2.2.2.2.2.2.2.2⟩

end TodoApp
